import Mathlib

/-!
Shallow embedding of the QR-code service storage core
(`QRService` in the repository: generateQR / getQR / deleteQR /
incrementAccessCount / cleanupExpired / getStats, plus the redis cache
helpers and the sqlite scan log).

Modelling conventions:
* A database row of table `qr_codes` is a `Record`.
* Each durable tier (SQLite primary, PostgreSQL secondary) is an
  `Option (List Record)`: `some db` means the tier is reachable and holds
  rows `db`; `none` means every query against it raises
  (`StorageUnavailable`), which is what a rejected promise does in the
  source.  The in-process `memoryStore` Map is a `List Record` keyed by
  `id` (it is always reachable).
* Timestamps are `Int` (milliseconds); `expiresAt = none` is SQL NULL.
* A thrown `NotFound` error is modelled as the `none` / `false` result of
  the corresponding function.
-/

namespace QR

/-- A row of the `qr_codes` table (identical shape in the SQLite and
PostgreSQL schemas, and the object stored in `memoryStore`). -/
structure Record where
  id : Nat
  data : String
  qrImageUrl : String
  createdAt : Int
  expiresAt : Option Int
  accessCount : Nat
  userId : Option String
  metadata : String
  isActive : Bool
deriving Repr, DecidableEq

/-- A row of the `qr_scan_logs` table (fields relevant to aggregation). -/
structure ScanEvent where
  qrId : Nat
  scannerIp : Option String
deriving Repr, DecidableEq

/-- The storage state a `QRService` call runs against: the two durable
tiers (with `none` meaning the tier raises) and the in-process memory
fallback Map. -/
structure SysState where
  sqlite : Option (List Record)
  pg : Option (List Record)
  mem : List Record
deriving Repr, DecidableEq

/-- The visibility predicate of the durable SELECTs:
`is_active = 1 AND (expires_at IS NULL OR expires_at > now)`. -/
def visibleDurable (r : Record) (now : Int) : Bool :=
  r.isActive &&
    (match r.expiresAt with
     | none => true
     | some e => decide (now < e))

/-- `getQR`'s SQLite lookup: `SELECT * FROM qr_codes WHERE id = ? AND
is_active = 1 AND (expires_at IS NULL OR expires_at > datetime(now))`. -/
def sqliteFindVisible (db : List Record) (i : Nat) (now : Int) : Option Record :=
  db.find? (fun r => decide (r.id = i) && visibleDurable r now)

/-- `getQR`'s PostgreSQL lookup: `SELECT * FROM qr_codes WHERE id = $1 AND
is_active = true AND (expires_at IS NULL OR expires_at > NOW())`. -/
def pgFindVisible (db : List Record) (i : Nat) (now : Int) : Option Record :=
  db.find? (fun r => decide (r.id = i) && visibleDurable r now)

/-- `getQR`'s memory-fallback branch: `memoryStore.get(id)`, then if the
record has an `expires_at` strictly in the past it is deleted from the
Map and the call throws not-found.  Note: no `is_active` check. -/
def memLookup (mem : List Record) (i : Nat) (now : Int) :
    Option Record × List Record :=
  match mem.find? (fun r => decide (r.id = i)) with
  | none => (none, mem)
  | some r =>
    match r.expiresAt with
    | some e =>
      if e < now then (none, mem.filter (fun x => decide (x.id ≠ i)))
      else (some r, mem)
    | none => (some r, mem)

/-- The cache-miss tier walk of `getQR`: try SQLite; only if the SQLite
query *raises* try PostgreSQL; if no durable record was produced fall
through to the memory store.  Result `none` models the thrown
`QR code not found or expired` error; the returned state carries the
memory store (which an expired memory probe mutates). -/
def getQRMiss (s : SysState) (i : Nat) (now : Int) :
    Option Record × SysState :=
  match s.sqlite with
  | some db =>
    match sqliteFindVisible db i now with
    | some r => (some r, s)
    | none =>
      let (res, mem2) := memLookup s.mem i now
      (res, { s with mem := mem2 })
  | none =>
    match s.pg with
    | some db =>
      match pgFindVisible db i now with
      | some r => (some r, s)
      | none =>
        let (res, mem2) := memLookup s.mem i now
        (res, { s with mem := mem2 })
    | none =>
      let (res, mem2) := memLookup s.mem i now
      (res, { s with mem := mem2 })

/-- The WHERE clause of `deleteQR`'s UPDATE:
`WHERE id = ?` or, when a `userId` was supplied, `WHERE id = ? AND
user_id = ?`.  Note the clause never mentions `is_active`. -/
def retireMatch (r : Record) (i : Nat) (owner : Option String) : Bool :=
  decide (r.id = i) &&
    (match owner with
     | none => true
     | some u => decide (r.userId = some u))

/-- One durable tier's `UPDATE qr_codes SET is_active = 0/false WHERE …`:
returns the driver's `rowCount` (rows matched by the WHERE clause, which
both sqlite3's `changes` and pg's `rowCount` report even when the stored
value is unchanged) together with the updated table. -/
def retireTier (db : List Record) (i : Nat) (owner : Option String) :
    Nat × List Record :=
  ((db.filter (fun r => retireMatch r i owner)).length,
   db.map (fun r =>
     if retireMatch r i owner then { r with isActive := false } else r))

/-- `memoryStore.has(id)`. -/
def memHas (mem : List Record) (i : Nat) : Bool :=
  mem.any (fun r => decide (r.id = i))

/-- `deleteQR(id, userId)`: run the soft-delete UPDATE against SQLite;
only if that query *raises* run it against PostgreSQL; then,
independently, if `memoryStore.has(id)` physically delete the memory
entry (no owner check there).  Result `false` models the thrown
`QR code not found or access denied` error. -/
def deleteQR (s : SysState) (i : Nat) (owner : Option String) :
    Bool × SysState :=
  let step :=
    match s.sqlite with
    | some db =>
      let (n, db2) := retireTier db i owner
      (decide (0 < n), some db2, s.pg)
    | none =>
      match s.pg with
      | some db =>
        let (n, db2) := retireTier db i owner
        (decide (0 < n), (none : Option (List Record)), some db2)
      | none => (false, none, none)
  let (d1, sq2, pg2) := step
  let (d2, mem2) :=
    if memHas s.mem i then (true, s.mem.filter (fun r => decide (r.id ≠ i)))
    else (false, s.mem)
  (d1 || d2, { sqlite := sq2, pg := pg2, mem := mem2 })

/-- The predicate of `cleanupExpired`'s DELETEs and of the memory sweep:
`expires_at < now`, with a NULL/absent `expires_at` never matching and
`is_active` never consulted. -/
def isExpired (r : Record) (now : Int) : Bool :=
  match r.expiresAt with
  | some e => decide (e < now)
  | none => false

/-- One tier's physical purge (`DELETE FROM qr_codes WHERE expires_at <
now`, or the `for … of memoryStore` sweep): rows removed and the
remaining table. -/
def purgeExpired (db : List Record) (now : Int) : Nat × List Record :=
  ((db.filter (fun r => isExpired r now)).length,
   db.filter (fun r => !isExpired r now))

/-- `cleanupExpired()`: purge SQLite; only if that DELETE *raises* purge
PostgreSQL; then always sweep the memory store; return the summed count. -/
def cleanupExpired (s : SysState) (now : Int) : Nat × SysState :=
  let step :=
    match s.sqlite with
    | some db =>
      let (n, db2) := purgeExpired db now
      (n, some db2, s.pg)
    | none =>
      match s.pg with
      | some db =>
        let (n, db2) := purgeExpired db now
        (n, (none : Option (List Record)), some db2)
      | none => (0, none, none)
  let (c1, sq2, pg2) := step
  let (c2, mem2) := purgeExpired s.mem now
  (c1 + c2, { sqlite := sq2, pg := pg2, mem := mem2 })

/-- Outcome of `generateQR`'s storage phase: `ok` when the call returns
the record, `storageError` when it throws (`Database storage failed`,
rewrapped by the outer catch as `Failed to generate QR code`). -/
inductive GenOutcome
  | ok
  | storageError
deriving Repr, DecidableEq

/-- `memoryStore.set(id, record)`: replace any entry under that key. -/
def memSet (mem : List Record) (r : Record) : List Record :=
  r :: mem.filter (fun x => decide (x.id ≠ r.id))

/-- The storage phase of `generateQR` (after the image has rendered):
INSERT into SQLite; on that raising, INSERT into PostgreSQL; on that also
raising, `memoryStore.set` the record and, only when
`NODE_ENV === production`, throw.  The memory write happens before the
throw. -/
def generateStore (s : SysState) (production : Bool) (r : Record) :
    GenOutcome × SysState :=
  match s.sqlite with
  | some db => (.ok, { s with sqlite := some (r :: db) })
  | none =>
    match s.pg with
    | some db => (.ok, { s with pg := some (r :: db) })
    | none =>
      let mem2 := memSet s.mem r
      if production then (.storageError, { s with mem := mem2 })
      else (.ok, { s with mem := mem2 })

/-- The redis `client.setEx` call inside `setCache`, which may reject. -/
def redisSetEx (writeOk : Bool) : Except String Unit :=
  if writeOk then Except.ok () else Except.error "redis SET rejected"

/-- `setCache(key, value, ttl)`: returns `false` when the client is not
open, catches any `setEx` rejection into `false`, returns `true` on
success — it never rethrows. -/
def setCache (clientOpen : Bool) (writeOk : Bool) : Bool :=
  if !clientOpen then false
  else
    match redisSetEx writeOk with
    | Except.ok _ => true
    | Except.error _ => false

/-- The `INSERT INTO qr_scan_logs …` query inside `logScan`, which may
reject. -/
def scanInsert (insertOk : Bool) : Except String Unit :=
  if insertOk then Except.ok () else Except.error "sqlite INSERT rejected"

/-- `logScan(qrId, scannerInfo)`: catches any insert rejection into
`false`, returns `true` on success — it never rethrows. -/
def logScan (insertOk : Bool) : Bool :=
  match scanInsert insertOk with
  | Except.ok _ => true
  | Except.error _ => false

/-- `UPDATE qr_codes SET access_count = access_count + 1 WHERE id = ?`,
and likewise the memory-branch read-bump-write. -/
def bumpAccess (db : List Record) (i : Nat) : List Record :=
  db.map (fun r =>
    if r.id = i then { r with accessCount := r.accessCount + 1 } else r)

/-- `incrementAccessCount(id)`: bump in SQLite; if that raises bump in
PostgreSQL; if that raises too bump the memory entry when present.  The
whole body sits in a try/catch that swallows everything, so the function
is total over every tier state. -/
def incrementAccessCount (s : SysState) (i : Nat) : SysState :=
  match s.sqlite with
  | some db => { s with sqlite := some (bumpAccess db i) }
  | none =>
    match s.pg with
    | some db => { s with pg := some (bumpAccess db i) }
    | none =>
      if memHas s.mem i then { s with mem := bumpAccess s.mem i } else s

/-- `getQR`'s cache-miss success path together with its best-effort side
operations: repopulate the cache (result dropped), log the scan (result
dropped), fire the access-count increment.  The booleans are the
side-operations' internal failure switches. -/
def getQRWithSides (s : SysState) (i : Nat) (now : Int)
    (cacheOpen cacheWriteOk scanInsertOk : Bool) :
    Option Record × SysState :=
  match getQRMiss s i now with
  | (none, s2) => (none, s2)
  | (some r, s2) =>
    let _cached := setCache cacheOpen cacheWriteOk
    let _logged := logScan scanInsertOk
    (some r, incrementAccessCount s2 i)

/-- The six fields of `getStats`'s result object (the source returns
them as decimal strings; the counts themselves are modelled). -/
structure Stats where
  totalCodes : Nat
  activeCodes : Nat
  totalAccesses : Nat
  totalScans : Nat
  uniqueScanners : Nat
  scannedCodes : Nat
deriving Repr, DecidableEq

/-- The optional `user_id = ?` filter of the stats queries and of the
memory scan. -/
def ownerMatch (r : Record) (owner : Option String) : Bool :=
  match owner with
  | none => true
  | some u => decide (r.userId = some u)

/-- The `expires_at > now OR expires_at IS NULL` test used for
`active_codes` (durable CASE expression and memory scan alike). -/
def notExpiredNow (r : Record) (now : Int) : Bool :=
  match r.expiresAt with
  | none => true
  | some e => decide (now < e)

/-- `getScanStats(null, userId)`: joins `qr_scan_logs` with the active
(`is_active = 1`, optionally owner-filtered) `qr_codes` rows and returns
`(scanned_codes, total_scans, unique_scanners)`; `COUNT(DISTINCT
scanner_ip)` ignores NULL addresses. -/
def getScanStats (db : List Record) (log : List ScanEvent)
    (owner : Option String) : Nat × Nat × Nat :=
  let joined := log.filter (fun e => db.any (fun q =>
    decide (q.id = e.qrId) && q.isActive && ownerMatch q owner))
  ((joined.map (fun e => e.qrId)).eraseDups.length,
   joined.length,
   (joined.filterMap (fun e => e.scannerIp)).eraseDups.length)

/-- The durable stats SELECT: over rows with `is_active` (and the owner
filter), `COUNT(*)`, `COUNT(CASE WHEN expires_at > now OR expires_at IS
NULL THEN 1 END)`, `SUM(access_count)` (NULL summed as 0). -/
def durableStats (db : List Record) (owner : Option String) (now : Int) :
    Nat × Nat × Nat :=
  let rel := db.filter (fun r => r.isActive && ownerMatch r owner)
  (rel.length,
   (rel.filter (fun r => notExpiredNow r now)).length,
   (rel.map (fun r => r.accessCount)).sum)

/-- The memory-store stats scan of `getStats`'s last fallback: filter by
owner, count every entry as a code, count it active when its expiry is
absent or in the future (no `is_active` check — memory entries carry
none), sum the access counts; scan-log fields default to zero. -/
def memoryStats (mem : List Record) (owner : Option String) (now : Int) :
    Stats :=
  let rel := mem.filter (fun r => ownerMatch r owner)
  { totalCodes := rel.length
    activeCodes := (rel.filter (fun r => notExpiredNow r now)).length
    totalAccesses := (rel.map (fun r => r.accessCount)).sum
    totalScans := 0
    uniqueScanners := 0
    scannedCodes := 0 }

/-- `getStats(userId)`: SQLite stats plus scan-log aggregate; if the
SQLite query raises, PostgreSQL stats with zero scan fields; if that
raises too, the memory scan.  Every failure path is caught, so the
function is total — the outer catch's all-zero object is the
`memoryStats` of an empty store. -/
def getStats (s : SysState) (log : List ScanEvent) (owner : Option String)
    (now : Int) : Stats :=
  match s.sqlite with
  | some db =>
    let (total, active, accesses) := durableStats db owner now
    let (scanned, scans, scanners) := getScanStats db log owner
    { totalCodes := total
      activeCodes := active
      totalAccesses := accesses
      totalScans := scans
      uniqueScanners := scanners
      scannedCodes := scanned }
  | none =>
    match s.pg with
    | some db =>
      let (total, active, accesses) := durableStats db owner now
      { totalCodes := total
        activeCodes := active
        totalAccesses := accesses
        totalScans := 0
        uniqueScanners := 0
        scannedCodes := 0 }
    | none => memoryStats s.mem owner now

/-- The route handler's override of the process-wide TTL environment
variable: `if (expiryHours) process.env.QR_CODE_EXPIRY_HOURS =
expiryHours.toString()`.  The environment is `Option Nat` (unset, or the
parsed numeric string); `0` is falsy in the guard. -/
def routeSetExpiryEnv (env : Option Nat) (override : Option Nat) :
    Option Nat :=
  match override with
  | some h => if h ≠ 0 then some h else env
  | none => env

/-- `generateQR`'s read of the TTL:
`parseInt(process.env.QR_CODE_EXPIRY_HOURS) || 24`. -/
def effectiveExpiryHours (env : Option Nat) : Nat :=
  match env with
  | some h => if h = 0 then 24 else h
  | none => 24

/-- `expiresAt = new Date(Date.now() + expiryHours * 60 * 60 * 1000)`. -/
def computeExpiresAt (env : Option Nat) (now : Int) : Int :=
  now + (effectiveExpiryHours env : Int) * 3600000

/-- The condition under which the memory-fallback branch of `getQR`
returns the found entry: the stored `expires_at` is absent or not
strictly in the past.  `is_active` plays no part. -/
def memVisibleCond (r : Record) (now : Int) : Bool :=
  match r.expiresAt with
  | none => true
  | some e => !decide (e < now)

/-- Sample record: active, never expiring, id 1. -/
def rVisible : Record :=
  { id := 1, data := "hello", qrImageUrl := "img", createdAt := 0,
    expiresAt := none, accessCount := 0, userId := none,
    metadata := "m", isActive := true }

/-- Sample record: retired (soft-deleted), never expiring, id 1. -/
def rRetired : Record :=
  { id := 1, data := "hello", qrImageUrl := "img", createdAt := 0,
    expiresAt := none, accessCount := 0, userId := none,
    metadata := "m", isActive := false }

/-- Sample record: active, owned by alice, id 2. -/
def rAlice : Record :=
  { id := 2, data := "hello", qrImageUrl := "img", createdAt := 0,
    expiresAt := none, accessCount := 0, userId := some "alice",
    metadata := "m", isActive := true }

/-- Sample record: active but already expired at time 0, id 3. -/
def rExpired : Record :=
  { id := 3, data := "hello", qrImageUrl := "img", createdAt := 0,
    expiresAt := some (-1), accessCount := 0, userId := none,
    metadata := "m", isActive := true }

/-- C1 counterexample: the memory-fallback lookup of `getQR` does not
apply the visibility invariant — a stored record with `isActive = false`
(and no expiry) is returned rather than treated as absent, so the claim
"for every tier the lookup returns the record iff `isActive` and not
expired" is false for the memory tier. -/
theorem c1_counterexample :
    (memLookup [rRetired] 1 0).1 = some rRetired
      ∧ rRetired.isActive = false := by
  constructor <;> rfl

/-- C1 (amended): the SQLite and PostgreSQL lookups return a stored
record iff `isActive` is true and (`expiresAt` unset or strictly in the
future); the memory-fallback lookup instead returns the stored record
iff `expiresAt` is unset or not strictly in the past, ignoring
`isActive`, and when the stored record is expired it is physically
removed from the memory store as a side effect of the probe. -/
theorem c1_visibility_amended (r : Record) (now : Int) :
    (sqliteFindVisible [r] r.id now
        = if visibleDurable r now then some r else none)
    ∧ (pgFindVisible [r] r.id now
        = if visibleDurable r now then some r else none)
    ∧ ((memLookup [r] r.id now).1
        = if memVisibleCond r now then some r else none)
    ∧ (∀ e, r.expiresAt = some e → e < now →
        memLookup [r] r.id now = (none, [])) := by
  refine ⟨?_, ?_, ?_, ?_⟩
  · cases h : visibleDurable r now <;>
      simp [sqliteFindVisible, List.find?, h]
  · cases h : visibleDurable r now <;>
      simp [pgFindVisible, List.find?, h]
  · cases he : r.expiresAt with
    | none => simp [memLookup, List.find?, memVisibleCond, he]
    | some e =>
      by_cases hlt : e < now <;>
        simp [memLookup, List.find?, memVisibleCond, he, hlt, List.filter]
  · intro e he hlt
    simp [memLookup, List.find?, he, hlt, List.filter]

/-- C1 witness: instantiating the amended theorem at the concrete
expired record shows the expired-probe clause fires. -/
theorem c1_visibility_witness :
    rExpired.expiresAt = some (-1)
      ∧ memLookup [rExpired] rExpired.id 0 = (none, []) :=
  ⟨rfl, (c1_visibility_amended rExpired 0).2.2.2 (-1) rfl (by decide)⟩

/-- C2 counterexample: with the primary tier reachable but holding no
visible record for id 1 and the secondary tier holding one, the
cache-miss walk of `getQR` fails with not-found instead of returning the
secondary tier's record — a primary NotFound skips PostgreSQL. -/
theorem c2_counterexample :
    pgFindVisible [rVisible] 1 0 = some rVisible
      ∧ (getQRMiss ⟨some [], some [rVisible], []⟩ 1 0).1 = none := by
  constructor <;> rfl

/-- C2 (amended): on a cache miss `getQR` consults the secondary tier
only when the primary raises, not when it returns NotFound — with the
primary reachable the outcome is independent of the secondary tier's
contents; when the primary raises, a visible secondary record is
returned; and the call fails with NotFound exactly when every tier it
actually consulted produced nothing. -/
theorem c2_walk_amended (s : SysState) (db pgA pgB mem : List Record)
    (i : Nat) (now : Int) (r : Record) :
    ((getQRMiss ⟨some db, some pgA, mem⟩ i now).1
        = (getQRMiss ⟨some db, some pgB, mem⟩ i now).1
      ∧ (getQRMiss ⟨some db, some pgA, mem⟩ i now).2.mem
        = (getQRMiss ⟨some db, some pgB, mem⟩ i now).2.mem)
    ∧ (pgFindVisible pgA i now = some r →
        (getQRMiss ⟨none, some pgA, mem⟩ i now).1 = some r)
    ∧ ((getQRMiss s i now).1 = none ↔
        ((∀ d, s.sqlite = some d → sqliteFindVisible d i now = none)
          ∧ (s.sqlite = none →
              ∀ d, s.pg = some d → pgFindVisible d i now = none)
          ∧ (memLookup s.mem i now).1 = none)) := by
  obtain ⟨sq, pg, m⟩ := s
  refine ⟨?_, ?_, ?_⟩
  · cases h : sqliteFindVisible db i now <;>
      simp [getQRMiss, h]
  · intro h
    simp [getQRMiss, h]
  · cases sq with
    | some d =>
      cases h : sqliteFindVisible d i now with
      | some r2 => simp [getQRMiss, h]
      | none => simp [getQRMiss, h]
    | none =>
      cases pg with
      | some d =>
        cases h : pgFindVisible d i now with
        | some r2 => simp [getQRMiss, h]
        | none => simp [getQRMiss, h]
      | none => simp [getQRMiss]

/-- C2 witness: the fallback-on-unavailability clause of the amended
theorem fires at a concrete state where the primary raises and the
secondary holds the record. -/
theorem c2_walk_witness :
    (getQRMiss ⟨none, some [rVisible], []⟩ 1 0).1 = some rVisible :=
  (c2_walk_amended ⟨none, some [rVisible], []⟩ [] [rVisible] [rVisible] []
    1 0 rVisible).2.1 (by rfl)

/-- C3 counterexample: with the primary tier reachable but matching no
row and the secondary tier holding record 1, `deleteQR` leaves the
secondary tier untouched and fails with NotFound — the accumulate-over-
all-tiers behaviour the claim states does not include the secondary
when the primary merely reports zero rows. -/
theorem c3_counterexample :
    (deleteQR ⟨some [], some [rVisible], []⟩ 1 none).1 = false
      ∧ (deleteQR ⟨some [], some [rVisible], []⟩ 1 none).2.pg
          = some [rVisible] := by
  constructor <;> rfl

/-- C3 (amended): `deleteQR` runs the retirement UPDATE against the
primary tier, against the secondary only when the primary raises (with
the primary reachable the outcome is independent of the secondary tier,
which passes through untouched), and always checks the memory store; it
returns true iff the consulted durable UPDATE matched a row or the
memory store held the id, and fails with NotFound otherwise. -/
theorem c3_delete_amended (s : SysState) (db pgA pgB mem : List Record)
    (i : Nat) (u : Option String) :
    ((deleteQR ⟨some db, some pgA, mem⟩ i u).1
        = (deleteQR ⟨some db, some pgB, mem⟩ i u).1
      ∧ (deleteQR ⟨some db, some pgA, mem⟩ i u).2.pg = some pgA)
    ∧ ((deleteQR s i u).1 = true ↔
        ((∃ d, s.sqlite = some d ∧ 0 < (retireTier d i u).1)
          ∨ (s.sqlite = none ∧ ∃ d, s.pg = some d ∧ 0 < (retireTier d i u).1)
          ∨ memHas s.mem i = true)) := by
  obtain ⟨sq, pg, m⟩ := s
  refine ⟨⟨rfl, rfl⟩, ?_⟩
  cases sq with
  | some d =>
    by_cases hm : memHas m i <;> simp [deleteQR, hm]
  | none =>
    cases pg with
    | some d =>
      by_cases hm : memHas m i <;> simp [deleteQR, hm]
    | none =>
      by_cases hm : memHas m i <;> simp [deleteQR, hm]

/-- C4 counterexample: record 1 is present and visible in the primary
tier; the first `deleteQR` returns true, but the second returns true
again instead of failing with NotFound, because the retirement UPDATE's
WHERE clause matches the already-retired row (it never filters on
`is_active`), so the driver still reports one affected row. -/
theorem c4_counterexample :
    sqliteFindVisible [rVisible] 1 0 = some rVisible
      ∧ (deleteQR ⟨some [rVisible], none, []⟩ 1 none).1 = true
      ∧ (deleteQR (deleteQR ⟨some [rVisible], none, []⟩ 1 none).2
          1 none).1 = true := by
  refine ⟨rfl, rfl, rfl⟩

/-- C4 (amended): calling Delete twice on the same id returns true both
times whenever a durable tier holds a row with that id, because the
retirement UPDATE matches the row regardless of `isActive`; only for a
record held solely in the memory store (where deletion is physical) does
the second call fail with NotFound. -/
theorem c4_delete_twice_amended (r : Record) :
    ((deleteQR ⟨some [r], none, []⟩ r.id none).1 = true
      ∧ (deleteQR (deleteQR ⟨some [r], none, []⟩ r.id none).2
          r.id none).1 = true)
    ∧ ((deleteQR ⟨some [], none, [r]⟩ r.id none).1 = true
      ∧ (deleteQR (deleteQR ⟨some [], none, [r]⟩ r.id none).2
          r.id none).1 = false) := by
  refine ⟨⟨?_, ?_⟩, ?_, ?_⟩ <;>
    simp [deleteQR, retireTier, retireMatch, memHas, List.filter]

/-- C5 counterexample: record 2 in the memory store is owned by alice,
yet `deleteQR` with ownerId bob physically removes it and returns true —
the memory branch never checks the owner, contradicting the claim that a
mismatched-owner delete affects no tier. -/
theorem c5_counterexample :
    rAlice.userId = some "alice"
      ∧ (deleteQR ⟨some [], none, [rAlice]⟩ 2 (some "bob")).1 = true
      ∧ (deleteQR ⟨some [], none, [rAlice]⟩ 2 (some "bob")).2.mem = [] := by
  refine ⟨rfl, rfl, rfl⟩

/-- C5 (amended): the durable tiers respect owner scoping — a retirement
UPDATE whose ownerId differs from the stored owner matches no row and
changes nothing — but the memory-fallback branch of `deleteQR` ignores
the ownerId entirely: it physically removes any memory entry with the
requested id and reports the deletion as a success. -/
theorem c5_owner_amended (r : Record) (i : Nat) (u : String)
    (mem : List Record) (h : r.userId ≠ some u) :
    retireTier [r] i (some u) = (0, [r])
      ∧ (memHas mem i = true →
          (deleteQR ⟨some [], none, mem⟩ i (some u)).1 = true) := by
  constructor
  · simp [retireTier, retireMatch, List.filter, h]
  · intro hm
    simp [deleteQR, retireTier, retireMatch, List.filter, hm]

/-- C5 witness: the amended theorem applied to alice's record and the
ownerId bob. -/
theorem c5_owner_witness :
    retireTier [rAlice] 2 (some "bob") = (0, [rAlice])
      ∧ (memHas [rAlice] 2 = true →
          (deleteQR ⟨some [], none, [rAlice]⟩ 2 (some "bob")).1 = true) :=
  c5_owner_amended rAlice 2 "bob" [rAlice] (by decide)

/-- C6 counterexample: the primary tier is reachable (and empty) while
the secondary holds an already-expired record; `cleanupExpired` returns
0 and leaves the secondary untouched, whereas the claim requires every
durable tier to be purged and the count to include that removal. -/
theorem c6_counterexample :
    isExpired rExpired 0 = true
      ∧ (cleanupExpired ⟨some [], some [rExpired], []⟩ 0).1 = 0
      ∧ (cleanupExpired ⟨some [], some [rExpired], []⟩ 0).2.pg
          = some [rExpired] := by
  refine ⟨rfl, rfl, rfl⟩

/-- C6 (amended): `cleanupExpired` purges the primary tier and the
memory store, consulting the secondary tier only when the primary
raises (with the primary reachable the secondary passes through
untouched); the returned count is the sum of the purges actually
performed, and each performed purge removes exactly the records whose
`expiresAt` is strictly in the past, regardless of `isActive`. -/
theorem c6_cleanup_amended (db pgA mem : List Record) (now : Int) :
    ((cleanupExpired ⟨some db, some pgA, mem⟩ now).1
        = (purgeExpired db now).1 + (purgeExpired mem now).1
      ∧ (cleanupExpired ⟨some db, some pgA, mem⟩ now).2.pg = some pgA)
    ∧ ((cleanupExpired ⟨none, some pgA, mem⟩ now).1
        = (purgeExpired pgA now).1 + (purgeExpired mem now).1)
    ∧ (∀ r, r ∈ (purgeExpired db now).2
        ↔ (r ∈ db ∧ isExpired r now = false))
    ∧ db.length
        = (purgeExpired db now).1 + (purgeExpired db now).2.length := by
  refine ⟨⟨rfl, rfl⟩, rfl, ?_, ?_⟩
  · intro r
    simp [purgeExpired, List.mem_filter]
  · induction db with
    | nil => rfl
    | cons a t ih =>
      cases h : isExpired a now <;>
        simp [purgeExpired, List.filter, h] at ih ⊢ <;> omega

/-- C7: when both durable inserts raise, `generateQR` writes the record
into the memory store and then, in production mode, throws a fatal
storage error, while in non-production mode the call succeeds with only
a warning; in both modes the freshly written record is present in the
memory store of the resulting state. -/
theorem c7_degraded_generate (mem : List Record) (r : Record) :
    ((generateStore ⟨none, none, mem⟩ true r).1 = GenOutcome.storageError
      ∧ r ∈ (generateStore ⟨none, none, mem⟩ true r).2.mem)
    ∧ ((generateStore ⟨none, none, mem⟩ false r).1 = GenOutcome.ok
      ∧ r ∈ (generateStore ⟨none, none, mem⟩ false r).2.mem) := by
  refine ⟨⟨rfl, ?_⟩, rfl, ?_⟩ <;> simp [generateStore, memSet]

/-- C8: `getStats` is a total function — with both durable tiers
unavailable it returns the memory-scan result with every one of the six
fields populated (scan-log fields zero), and with every tier empty or
failed it returns the all-zero object rather than raising. -/
theorem c8_stats_degrade (log : List ScanEvent) (mem : List Record)
    (u : Option String) (now : Int) :
    getStats ⟨none, none, mem⟩ log u now = memoryStats mem u now
      ∧ getStats ⟨none, none, []⟩ log u now
          = { totalCodes := 0, activeCodes := 0, totalAccesses := 0,
              totalScans := 0, uniqueScanners := 0, scannedCodes := 0 } := by
  exact ⟨rfl, rfl⟩

/-- C9: the best-effort side operations return normally for every input
— `setCache` collapses client-unavailability and a rejected write into
the boolean `false`, `logScan` collapses a rejected insert into `false`,
and the retrieval path's outcome (including the fire-and-forget
access-count increment, itself total) is identical no matter which of
the side operations fail, so none of them can fail a Retrieve call. -/
theorem c9_side_ops_never_fail (s : SysState) (i : Nat) (now : Int)
    (a1 b1 d1 a2 b2 d2 : Bool) :
    setCache a1 b1 = (a1 && b1)
      ∧ logScan d1 = d1
      ∧ getQRWithSides s i now a1 b1 d1 = getQRWithSides s i now a2 b2 d2
      ∧ (getQRWithSides s i now a1 b1 d1).1 = (getQRMiss s i now).1 := by
  refine ⟨?_, ?_, ?_, ?_⟩
  · cases a1 <;> cases b1 <;> rfl
  · cases d1 <;> rfl
  · cases h : getQRMiss s i now with
    | mk res s2 => cases res <;> simp [getQRWithSides, h]
  · cases h : getQRMiss s i now with
    | mk res s2 => cases res <;> simp [getQRWithSides, h]

/-- C10: a caller-supplied `expiryHours` is written into the process-wide
environment variable and never restored — after one override every later
Generate that omits the option computes its `expiresAt` from the
overriding value rather than from the originally configured default. -/
theorem c10_expiry_override_leaks (env : Option Nat) (h : Nat)
    (later : Int) (hp : h ≠ 0) :
    routeSetExpiryEnv env (some h) = some h
      ∧ routeSetExpiryEnv (routeSetExpiryEnv env (some h)) none = some h
      ∧ computeExpiresAt (routeSetExpiryEnv env (some h)) later
          = later + (h : Int) * 3600000 := by
  simp [routeSetExpiryEnv, effectiveExpiryHours, computeExpiresAt, hp]

/-- C10 witness: with the default 24 in the environment, an override of
1 hour persists and a later no-option call computes a 1-hour expiry. -/
theorem c10_expiry_override_witness :
    routeSetExpiryEnv (some 24) (some 1) = some 1
      ∧ routeSetExpiryEnv (routeSetExpiryEnv (some 24) (some 1)) none
          = some 1
      ∧ computeExpiresAt (routeSetExpiryEnv (some 24) (some 1)) 0
          = 0 + (1 : Int) * 3600000 :=
  c10_expiry_override_leaks (some 24) 1 0 (by decide)

end QR
